import Mathlib

/-!
# SteeringNNMainWindow: wiring and lifecycle of the steering pipeline

Embedding of `src/ui_steering_nn/steering_nn_main_window.cpp`.

The window owns every pipeline component.  Its constructor, destructor and
slots are straight-line code, so each of them is embedded as the list of the
statements it executes, in source order.  Arguments of constructor calls are
kept symbolically (`x.get()`, `&(x->accessor())`, constructor parameters,
literals), which is what the wiring properties talk about.

The classes of the components themselves (history stores, workers, loggers,
controller, feeder, reader threads) are not part of this file; where a
property needs what their `Start`/`Stop`/`wait`/`SetFeedEnabled` do, their
behaviour is modelled from the design document and marked as such.
-/

namespace SteeringNN

/-! ## Data model: members, classes and argument expressions -/

/-- Data members of `SteeringNNMainWindow` (plus the `QMainWindow` base). -/
inductive Member
  | QMainWindow
  | ui
  | car_motion_data_
  | car_motion_data_updater_
  | arduino_command_channel_
  | steering_controller_
  | prediction_updater_
  | steering_controller_feeder_
  | kia_commands_logger_
  | steering_angles_logger_
  | target_steering_angles_logger_
  | steering_angle_read_thread_
  | velocity_read_thread_
  | steering_torque_offset_read_thread_
  | steering_prediction_read_thread_
  deriving DecidableEq, Repr, Fintype

/-- Entry types the JSON logger template is instantiated with. -/
inductive EntryType
  | KiaControlCommand
  | SteeringAngle
  | TargetSteeringAngleStatus
  deriving DecidableEq, Repr

/-- Classes instantiated by the constructor. -/
inductive Class
  | QMainWindow
  | Ui_SteeringNNMainWindow
  | CarMotionData
  | CarMotionDataUpdater
  | ArduinoCommandChannel
  | SteeringAngleHolderController
  | SingleSteeringAnglePredictionUpdater
  | SteeringAngleHolderFeeder
  | TimestampedJsonLogger (entry : EntryType)
  | SteeringAngleReadThread
  | VelocityReadThread
  | SteeringTorqueOffsetReadThread
  | SteeringPredictionReadThread
  deriving DecidableEq, Repr

/-- History-store accessors called on members in the constructor. -/
inductive Accessor
  | steering_angles
  | velocities
  | CommandsHistory
  | TargetSteeringAnglesHistory
  | Predictions
  deriving DecidableEq, Repr, Fintype

/-- Parameters of the constructor. -/
inductive Param
  | can_interface
  | arduino_tty
  | steering_controller_settings
  | prediction_data_socket
  | log_dir
  | parent
  deriving DecidableEq, Repr

/-- Root-element constants named in the constructor. -/
inductive RootElement
  | STEERING_COMMANDS_LOG_ROOT_ELEMENT
  | STEERING_ANGLES_LOG_ROOT_ELEMENT
  | TARGET_STEERING_ANGLES_LOG_ROOT_ELEMENT
  deriving DecidableEq, Repr

/-- JSON stream writers created in the constructor. -/
inductive JsonWriter
  | SteeringCommandsJsonWriter
  | SteeringAngleJsonWriter
  | TargetSteeringAngleStatusJsonWriter
  deriving DecidableEq, Repr

/-- Argument expressions appearing in the constructor calls of the source. -/
inductive Arg
  /-- The expression `m.get()`: a pointer to the member object itself. -/
  | get (m : Member)
  /-- The expression `&(m->a())`: a pointer to a history store of `m`. -/
  | history (m : Member) (a : Accessor)
  /-- A constructor parameter passed through. -/
  | param (p : Param)
  /-- The expression `CHECK_NOTNULL(p)`. -/
  | check_notnull (p : Param)
  /-- An integer literal. -/
  | nat (n : Nat)
  /-- A braced list of integer literals. -/
  | nats (l : List Nat)
  /-- A boolean literal. -/
  | flag (b : Bool)
  /-- A root-element constant. -/
  | root (r : RootElement)
  /-- A freshly allocated JSON writer wrapped in a `unique_ptr`. -/
  | writer (w : JsonWriter)
  deriving DecidableEq, Repr

/-- Methods the window calls on its members. -/
inductive Method
  | setupUi
  | Start
  | Stop
  | start
  | stop
  | RequestStop
  | wait
  | SetFeedEnabled (enabled : Bool)
  deriving DecidableEq, Repr

/-- Value labels of the form. -/
inductive Label
  | steering_angle_value_label
  | velocity_value_label
  | torque_offset_value_label
  | target_angle_value_label
  deriving DecidableEq, Repr

/-- Push buttons of the form. -/
inductive Button
  | predictor_start_button
  | predictor_stop_button
  | steering_start_button
  | steering_stop_button
  deriving DecidableEq, Repr

/-- Signals connected in the constructor. -/
inductive Signal
  | SteeringAngleChanged
  | VelocityChanged
  | SteeringTorqueChanged
  | SteeringPredictionChanged
  | clicked
  deriving DecidableEq, Repr

/-- Slots of the window. -/
inductive Slot
  | OnSteeringAngleChanged
  | OnVelocityChanged
  | OnSteeringTorqueChanged
  | OnSteeringPredictionChanged
  | PredictionUpdaterStart
  | PredictionUpdaterStop
  | SteeringStart
  | SteeringStop
  deriving DecidableEq, Repr

/-- Sender of a connected signal: a member object or a button of the form. -/
inductive Sender
  | member (m : Member)
  | button (b : Button)
  deriving DecidableEq, Repr

/-- Text handed to `setText`, kept symbolically. -/
inductive Text
  /-- A `QString` passed through unchanged. -/
  | qstring (s : String)
  /-- The text `QString::number(static_cast<double>(n) / 10.0)`. -/
  | number_of_double_div_10 (n : Int)
  deriving DecidableEq, Repr

/-- Statements executed by the window. -/
inductive Stmt
  /-- A member initialiser `m(new C(args))`, or `m.reset(new C(args))`. -/
  | construct (m : Member) (c : Class) (args : List Arg)
  /-- A method call `m->f()`. -/
  | call (m : Member) (f : Method)
  /-- A Qt `connect(sender, signal, this, slot)`. -/
  | connect (sender : Sender) (signal : Signal) (slot : Slot)
  /-- A call `ui->label->setText(text)`. -/
  | setText (label : Label) (text : Text)
  /-- A `delete m` statement. -/
  | delete (m : Member)
  deriving DecidableEq, Repr

open Member Class Accessor Arg Method

/-! ## The constructor -/

/-- Member initialiser list of the constructor (source lines 19-51). -/
def memberInitialisers : List Stmt :=
  [ .construct .QMainWindow .QMainWindow [param .parent],
    .construct ui Ui_SteeringNNMainWindow [],
    .construct car_motion_data_ CarMotionData [nat 10],
    .construct car_motion_data_updater_ CarMotionDataUpdater
      [get car_motion_data_, param .can_interface, nats [0x2B0, 0x4B0], nats [1, 0]],
    .construct arduino_command_channel_ ArduinoCommandChannel [param .arduino_tty],
    .construct steering_controller_ SteeringAngleHolderController
      [history car_motion_data_ steering_angles, get arduino_command_channel_,
       param .steering_controller_settings],
    .construct prediction_updater_ SingleSteeringAnglePredictionUpdater
      [check_notnull .prediction_data_socket, nat 5],
    .construct steering_controller_feeder_ SteeringAngleHolderFeeder
      [get steering_controller_, history prediction_updater_ Predictions, flag true],
    .construct kia_commands_logger_ (TimestampedJsonLogger .KiaControlCommand)
      [param .log_dir, root .STEERING_COMMANDS_LOG_ROOT_ELEMENT,
       writer .SteeringCommandsJsonWriter,
       history arduino_command_channel_ CommandsHistory],
    .construct steering_angles_logger_ (TimestampedJsonLogger .SteeringAngle)
      [param .log_dir, root .STEERING_ANGLES_LOG_ROOT_ELEMENT,
       writer .SteeringAngleJsonWriter,
       history car_motion_data_ steering_angles],
    .construct target_steering_angles_logger_
      (TimestampedJsonLogger .TargetSteeringAngleStatus)
      [param .log_dir, root .TARGET_STEERING_ANGLES_LOG_ROOT_ELEMENT,
       writer .TargetSteeringAngleStatusJsonWriter,
       history steering_controller_ TargetSteeringAnglesHistory] ]

/-- Body of the constructor (source lines 52-93). -/
def constructorBody : List Stmt :=
  [ .call ui setupUi,
    .call prediction_updater_ Start,
    .call steering_controller_feeder_ Start,
    .construct steering_angle_read_thread_ SteeringAngleReadThread
      [history car_motion_data_ steering_angles],
    .connect (.member steering_angle_read_thread_) .SteeringAngleChanged
      .OnSteeringAngleChanged,
    .call steering_angle_read_thread_ start,
    .construct velocity_read_thread_ VelocityReadThread
      [history car_motion_data_ velocities],
    .connect (.member velocity_read_thread_) .VelocityChanged .OnVelocityChanged,
    .call velocity_read_thread_ start,
    .construct steering_torque_offset_read_thread_ SteeringTorqueOffsetReadThread
      [history arduino_command_channel_ CommandsHistory],
    .connect (.member steering_torque_offset_read_thread_) .SteeringTorqueChanged
      .OnSteeringTorqueChanged,
    .call steering_torque_offset_read_thread_ start,
    .construct steering_prediction_read_thread_ SteeringPredictionReadThread
      [history steering_controller_ TargetSteeringAnglesHistory],
    .connect (.member steering_prediction_read_thread_) .SteeringPredictionChanged
      .OnSteeringPredictionChanged,
    .call steering_prediction_read_thread_ start,
    .connect (.button .predictor_start_button) .clicked .PredictionUpdaterStart,
    .connect (.button .predictor_stop_button) .clicked .PredictionUpdaterStop,
    .connect (.button .steering_start_button) .clicked .SteeringStart,
    .connect (.button .steering_stop_button) .clicked .SteeringStop ]

/-- The whole constructor: initialiser list, then body. -/
def constructor : List Stmt :=
  memberInitialisers ++ constructorBody

/-! ## The destructor -/

/-- Body of the destructor (source lines 96-113). -/
def destructor : List Stmt :=
  [ .call steering_angle_read_thread_ RequestStop,
    .call velocity_read_thread_ RequestStop,
    .call steering_torque_offset_read_thread_ RequestStop,
    .call steering_prediction_read_thread_ RequestStop,
    .call steering_angle_read_thread_ wait,
    .call velocity_read_thread_ wait,
    .call steering_torque_offset_read_thread_ wait,
    .call steering_prediction_read_thread_ wait,
    .call kia_commands_logger_ Stop,
    .call steering_angles_logger_ Stop,
    .call target_steering_angles_logger_ Stop,
    .call steering_controller_ Stop,
    .call car_motion_data_updater_ stop,
    .call prediction_updater_ Stop,
    .call steering_controller_feeder_ Stop,
    .delete ui ]

/-! ## Display slots and operator handlers -/

/-- Slot `OnSteeringAngleChanged(int16_t angle_deci_degrees)`. -/
def OnSteeringAngleChanged (angle_deci_degrees : Int) : List Stmt :=
  [ .setText .steering_angle_value_label (.number_of_double_div_10 angle_deci_degrees) ]

/-- Slot `OnVelocityChanged(QString text)`. -/
def OnVelocityChanged (text : String) : List Stmt :=
  [ .setText .velocity_value_label (.qstring text) ]

/-- Slot `OnSteeringTorqueChanged(QString text)`. -/
def OnSteeringTorqueChanged (text : String) : List Stmt :=
  [ .setText .torque_offset_value_label (.qstring text) ]

/-- Slot `OnSteeringPredictionChanged(QString text)`. -/
def OnSteeringPredictionChanged (text : String) : List Stmt :=
  [ .setText .target_angle_value_label (.qstring text) ]

/-- Slot `PredictionUpdaterStart()`. -/
def PredictionUpdaterStart : List Stmt :=
  [ .call steering_controller_feeder_ (SetFeedEnabled true) ]

/-- Slot `PredictionUpdaterStop()`. -/
def PredictionUpdaterStop : List Stmt :=
  [ .call steering_controller_feeder_ (SetFeedEnabled false) ]

/-- Slot `SteeringStart()`. -/
def SteeringStart : List Stmt :=
  [ .call car_motion_data_updater_ start ]

/-- Slot `SteeringStop()`. -/
def SteeringStop : List Stmt :=
  [ .call car_motion_data_updater_ stop ]

/-- The four operator actions, one per push button. -/
inductive OperatorAction
  | PredictionUpdaterStart
  | PredictionUpdaterStop
  | SteeringStart
  | SteeringStop
  deriving DecidableEq, Repr, Fintype

/-- Statements run by the slot connected to an operator action. -/
def OperatorAction.body : OperatorAction → List Stmt
  | .PredictionUpdaterStart => SteeringNN.PredictionUpdaterStart
  | .PredictionUpdaterStop => SteeringNN.PredictionUpdaterStop
  | .SteeringStart => SteeringNN.SteeringStart
  | .SteeringStop => SteeringNN.SteeringStop

/-- Statements run by a sequence of operator actions. -/
def actionsBody (acts : List OperatorAction) : List Stmt :=
  acts.flatMap OperatorAction.body

/-! ## Reading the wiring off the statements -/

/-- The constructions among a list of statements: member, class, arguments. -/
def constructions (l : List Stmt) : List (Member × Class × List Arg) :=
  l.filterMap fun s =>
    match s with
    | .construct m c args => some (m, c, args)
    | _ => none

/-- Members constructed with the argument expression `x`, in source order. -/
def holdersOf (x : Arg) (l : List Stmt) : List Member :=
  ((constructions l).filter fun e => decide (x ∈ e.2.2)).map fun e => e.1

/-- Arguments a member is constructed with (`none` when it is not constructed). -/
def argsOf (m : Member) (l : List Stmt) : Option (List Arg) :=
  ((constructions l).find? fun e => decide (e.1 = m)).map fun e => e.2.2

/-- Whether an argument expression goes through member `m`. -/
def Arg.mentions (m : Member) : Arg → Bool
  | .get n => decide (n = m)
  | .history n _ => decide (n = m)
  | _ => false

/-- Members constructed with some argument that goes through member `m`. -/
def dependentsOf (m : Member) (l : List Stmt) : List Member :=
  ((constructions l).filter fun e => e.2.2.any (Arg.mentions m)).map fun e => e.1

/-- Whether a statement is a method call on member `m`. -/
def Stmt.callsInto (m : Member) : Stmt → Bool
  | .call n _ => decide (n = m)
  | _ => false

/-- Whether a statement is a method call on some member. -/
def Stmt.isCall : Stmt → Bool
  | .call _ _ => true
  | _ => false

/-- History stores referenced anywhere in a list of statements, without repeats. -/
def storesUsed (l : List Stmt) : List Arg :=
  ((constructions l).flatMap fun e =>
    e.2.2.filter fun a =>
      match a with
      | .history _ _ => true
      | _ => false).dedup

/-- Logger constructions: member, entry type, root element and tailed store. -/
def loggers (l : List Stmt) : List (Member × EntryType × Arg × Arg) :=
  (constructions l).filterMap fun e =>
    match e with
    | (m, .TimestampedJsonLogger t, [.param .log_dir, r, .writer _, st]) => some (m, t, r, st)
    | _ => none

/-- Whether some logger constructed in `l` tails the store `st`. -/
def isLogged (st : Arg) (l : List Stmt) : Bool :=
  (loggers l).any fun e => decide (e.2.2.2 = st)

/-- Whether a class is one of the display reader thread classes. -/
def Class.isReadThread : Class → Bool
  | .SteeringAngleReadThread => true
  | .VelocityReadThread => true
  | .SteeringTorqueOffsetReadThread => true
  | .SteeringPredictionReadThread => true
  | _ => false

/-- Whether a class is an instance of the JSON logger template. -/
def Class.isLogger : Class → Bool
  | .TimestampedJsonLogger _ => true
  | _ => false

/-- Members constructed with a class satisfying `c`, in source order. -/
def membersOfClass (c : Class → Bool) (l : List Stmt) : List Member :=
  ((constructions l).filter fun e => c e.2.1).map fun e => e.1

/-! ## Component groups and phases of the shutdown protocol -/

/-- The four display reader threads. -/
def displayReaderThreads : List Member :=
  [steering_angle_read_thread_, velocity_read_thread_,
   steering_torque_offset_read_thread_, steering_prediction_read_thread_]

/-- The three durable loggers. -/
def durableLoggers : List Member :=
  [kia_commands_logger_, steering_angles_logger_, target_steering_angles_logger_]

/-- The workers that are stopped with `Stop`/`stop`. -/
def stoppedWorkers : List Member :=
  durableLoggers ++
    [steering_controller_, car_motion_data_updater_, prediction_updater_,
     steering_controller_feeder_]

/-- Phase of the shutdown protocol a statement belongs to:
1 request-stop of a reader thread, 2 wait on a reader thread, 3 stop of a
logger, 4 stop of the controller, 5 stop of the motion worker, 6 stop of the
prediction worker or of the feeder.  Other statements have no phase. -/
def shutdownPhase : Stmt → Option Nat
  | .call m .RequestStop => if m ∈ displayReaderThreads then some 1 else none
  | .call m .wait => if m ∈ displayReaderThreads then some 2 else none
  | .call m .Stop =>
      if m ∈ durableLoggers then some 3
      else if m = steering_controller_ then some 4
      else if m = prediction_updater_ ∨ m = steering_controller_feeder_ then some 6
      else none
  | .call m .stop => if m = car_motion_data_updater_ then some 5 else none
  | _ => none

/-- Whether a method ends the activity of the object it is called on. -/
def Method.isFinal : Method → Bool
  | .Stop => true
  | .stop => true
  | .wait => true
  | _ => false

/-- Whether some member is called again after a final call on it. -/
def usedAfterStop : List Stmt → Bool
  | [] => false
  | .call m f :: rest =>
      (f.isFinal && rest.any (Stmt.callsInto m)) || usedAfterStop rest
  | _ :: rest => usedAfterStop rest

/-- Statements executed strictly before the first occurrence of `s`. -/
def before (s : Stmt) (l : List Stmt) : List Stmt :=
  l.takeWhile fun t => decide (t ≠ s)

/-- Members the constructor starts, in source order. -/
def startedByConstructor : List Member :=
  constructor.filterMap fun s =>
    match s with
    | .call m .Start => some m
    | .call m .start => some m
    | _ => none

/-- Operator action that sets the feed flag to `b`. -/
def feedAction : Bool → OperatorAction
  | true => .PredictionUpdaterStart
  | false => .PredictionUpdaterStop

/-! ## Lifecycle of the components -/

/-- Modelled from the spec: lifecycle state of a component whose class is not
in this file.  The design document gives the controller the states Idle
(constructed), Active and Stopped, and gives every worker loop the same
start/stop contract; a reader thread that was asked to stop and has not been
joined yet is StopRequested. -/
inductive LifeState
  | Idle
  | Active
  | StopRequested
  | Stopped
  deriving DecidableEq, Repr

/-- Modelled from the spec: `start()` moves Idle to Active and leaves a running
component running.  Whether a stopped component can be started again is not
fixed by the design document, so it is a parameter. -/
def LifeState.start (restartable : Bool) : LifeState → LifeState
  | .Idle => .Active
  | .Active => .Active
  | .StopRequested => .StopRequested
  | .Stopped => if restartable then .Active else .Stopped

/-- Modelled from the spec: `stop()` moves any state to Stopped, is idempotent,
and on a component that never started it is not an error. -/
def LifeState.stop : LifeState → LifeState
  | _ => .Stopped

/-- Modelled from the spec: requesting a running background loop to stop. -/
def LifeState.requestStop : LifeState → LifeState
  | .Active => .StopRequested
  | s => s

/-- Modelled from the spec: joining a background loop.  The join returns once
the loop has terminated, which it does after a stop request; joining a loop
that runs and was never asked to stop does not return (`none`). -/
def LifeState.wait : LifeState → Option LifeState
  | .Idle => some .Idle
  | .Active => none
  | .StopRequested => some .Stopped
  | .Stopped => some .Stopped

/-- Whether a component is running its background activity. -/
def LifeState.running : LifeState → Bool
  | .Active => true
  | .StopRequested => true
  | _ => false

/-- Run state of the pipeline: the lifecycle state of every member and the
enabled flag of the feeder. -/
structure Pipeline where
  life : Member → LifeState
  feed_enabled : Bool

/-- Replace the lifecycle state of one member. -/
def Pipeline.setLife (p : Pipeline) (m : Member) (s : LifeState) : Pipeline :=
  { p with life := fun n => if n = m then s else p.life n }

/-- State before the constructor runs; `feed0` is the enabled flag a freshly
constructed feeder has. -/
def Pipeline.fresh (feed0 : Bool) : Pipeline :=
  { life := fun _ => .Idle, feed_enabled := feed0 }

/-- Modelled from the spec: effect of one statement of the window on the run
state, through the lifecycle operations of the component it is issued on.
`SetFeedEnabled` only writes the flag of the feeder; statements on the form
(setup, connect, setText, delete of the form) do not touch the run state. -/
def exec (restartable : Member → Bool) (p : Pipeline) : Stmt → Option Pipeline
  | .construct m _ _ => some (p.setLife m .Idle)
  | .call m .Start => some (p.setLife m ((p.life m).start (restartable m)))
  | .call m .start => some (p.setLife m ((p.life m).start (restartable m)))
  | .call m .Stop => some (p.setLife m (p.life m).stop)
  | .call m .stop => some (p.setLife m (p.life m).stop)
  | .call m .RequestStop => some (p.setLife m (p.life m).requestStop)
  | .call m .wait => (p.life m).wait.map (p.setLife m)
  | .call _ (.SetFeedEnabled b) => some { p with feed_enabled := b }
  | .call _ .setupUi => some p
  | .connect _ _ _ => some p
  | .setText _ _ => some p
  | .delete _ => some p

/-- Execute statements in order; `none` when one of them does not return. -/
def run (restartable : Member → Bool) : Pipeline → List Stmt → Option Pipeline
  | p, [] => some p
  | p, s :: rest => (exec restartable p s).bind fun q => run restartable q rest

/-! ## Bounded history store -/

/-- Modelled from the spec: the bounded history store (its class is not in
this file): an insertion-ordered sequence of samples with a fixed capacity,
oldest first. -/
structure TimestampedHistory (α : Type) where
  capacity : Nat
  entries : List α

/-- Modelled from the spec: an empty store of capacity `n`. -/
def TimestampedHistory.empty (α : Type) (n : Nat) : TimestampedHistory α :=
  { capacity := n, entries := [] }

/-- Modelled from the spec: `append(sample)` puts the sample last and evicts
the oldest entries on overflow. -/
def TimestampedHistory.append {α : Type} (h : TimestampedHistory α) (x : α) :
    TimestampedHistory α :=
  { h with entries := (h.entries ++ [x]).drop ((h.entries ++ [x]).length - h.capacity) }

/-- Append a sequence of samples in order. -/
def TimestampedHistory.appendAll {α : Type} (h : TimestampedHistory α) (xs : List α) :
    TimestampedHistory α :=
  xs.foldl TimestampedHistory.append h

/-- Capacity the motion history stores are constructed with: the argument of
`CarMotionData` in a list of statements. -/
def motionHistoryCapacity (l : List Stmt) : Option Nat :=
  match argsOf car_motion_data_ l with
  | some [.nat n] => some n
  | _ => none

/-! ## Shutdown order -/

/-- C1: the method calls of the destructor are, in order, RequestStop on each
of the four display reader threads, wait on each of the four, Stop on each of
the three loggers, Stop on the controller, stop on the motion worker, Stop on
the prediction worker and Stop on the feeder; every one of them belongs to a
phase of the shutdown protocol, and the phases never decrease along the
destructor.  Its only other statement is the final `delete ui`.  The reader
threads and the loggers are the members the constructor creates with a
reader-thread class and with the logger template. -/
theorem destructor_follows_shutdown_protocol :
    destructor.filter Stmt.isCall =
        displayReaderThreads.map (fun m => Stmt.call m .RequestStop) ++
        displayReaderThreads.map (fun m => Stmt.call m .wait) ++
        durableLoggers.map (fun m => Stmt.call m .Stop) ++
        [ .call steering_controller_ .Stop,
          .call car_motion_data_updater_ .stop,
          .call prediction_updater_ .Stop,
          .call steering_controller_feeder_ .Stop ]
    ∧ (destructor.filter Stmt.isCall).map shutdownPhase =
        [some 1, some 1, some 1, some 1, some 2, some 2, some 2, some 2,
         some 3, some 3, some 3, some 4, some 5, some 6, some 6]
    ∧ List.Pairwise (fun a b => a ≤ b) (destructor.filterMap shutdownPhase)
    ∧ destructor.filter (fun s => !s.isCall) = [.delete ui]
    ∧ destructor.getLast? = some (.delete ui)
    ∧ membersOfClass Class.isReadThread constructor = displayReaderThreads
    ∧ membersOfClass Class.isLogger constructor = durableLoggers := by
  decide

/-! ## Wiring -/

/-- C4, as stated, fails: the velocities store and the prediction store are
history stores of the pipeline and no logger constructed by the window tails
either of them. -/
theorem velocities_and_predictions_not_logged :
    history car_motion_data_ velocities ∈ storesUsed constructor
    ∧ isLogged (history car_motion_data_ velocities) constructor = false
    ∧ history prediction_updater_ Predictions ∈ storesUsed constructor
    ∧ isLogged (history prediction_updater_ Predictions) constructor = false
    ∧ ¬ (∀ st ∈ storesUsed constructor, isLogged st constructor = true) := by
  decide

/-- C4, amended: the window constructs exactly three loggers, for steering
commands, steering angles and target steering angles, each tailing the history
store of its stream under the root-element name of its stream; the stores of
the pipeline that are tailed by a logger are exactly those three, and the
velocities store and the prediction store are tailed by none. -/
theorem three_streams_are_logged :
    loggers constructor =
      [ (kia_commands_logger_, .KiaControlCommand,
          root .STEERING_COMMANDS_LOG_ROOT_ELEMENT,
          history arduino_command_channel_ CommandsHistory),
        (steering_angles_logger_, .SteeringAngle,
          root .STEERING_ANGLES_LOG_ROOT_ELEMENT,
          history car_motion_data_ steering_angles),
        (target_steering_angles_logger_, .TargetSteeringAngleStatus,
          root .TARGET_STEERING_ANGLES_LOG_ROOT_ELEMENT,
          history steering_controller_ TargetSteeringAnglesHistory) ]
    ∧ (loggers constructor).map (fun e => e.1) = durableLoggers
    ∧ membersOfClass Class.isLogger constructor = durableLoggers
    ∧ (∀ st, st ∈ storesUsed constructor ∧ isLogged st constructor = true ↔
          st ∈ [ history arduino_command_channel_ CommandsHistory,
                 history car_motion_data_ steering_angles,
                 history steering_controller_ TargetSteeringAnglesHistory ])
    ∧ (∀ st, st ∈ storesUsed constructor ∧ isLogged st constructor = false ↔
          st ∈ [ history car_motion_data_ velocities,
                 history prediction_updater_ Predictions ]) := by
  refine ⟨by decide, by decide, by decide, ?_, ?_⟩
  · intro st
    constructor
    · rintro ⟨h, hl⟩
      have hs : storesUsed constructor =
          [ history prediction_updater_ Predictions,
            history car_motion_data_ steering_angles,
            history car_motion_data_ velocities,
            history arduino_command_channel_ CommandsHistory,
            history steering_controller_ TargetSteeringAnglesHistory ] := by decide
      rw [hs] at h
      simp only [List.mem_cons, List.mem_singleton, List.not_mem_nil, or_false] at h
      rcases h with rfl | rfl | rfl | rfl | rfl
      · exact absurd hl (by decide)
      · decide
      · exact absurd hl (by decide)
      · decide
      · decide
    · intro h
      simp only [List.mem_cons, List.mem_singleton, List.not_mem_nil, or_false] at h
      rcases h with rfl | rfl | rfl <;> decide
  · intro st
    constructor
    · rintro ⟨h, hl⟩
      have hs : storesUsed constructor =
          [ history prediction_updater_ Predictions,
            history car_motion_data_ steering_angles,
            history car_motion_data_ velocities,
            history arduino_command_channel_ CommandsHistory,
            history steering_controller_ TargetSteeringAnglesHistory ] := by decide
      rw [hs] at h
      simp only [List.mem_cons, List.mem_singleton, List.not_mem_nil, or_false] at h
      rcases h with rfl | rfl | rfl | rfl | rfl
      · decide
      · exact absurd hl (by decide)
      · decide
      · exact absurd hl (by decide)
      · exact absurd hl (by decide)
    · intro h
      simp only [List.mem_cons, List.mem_singleton, List.not_mem_nil, or_false] at h
      rcases h with rfl | rfl <;> decide

/-- C6: the controller is the only member constructed with the command channel
itself; the members whose arguments go through the channel are the controller,
the commands logger and the torque-offset reader, and the latter two receive
only its commands history store; no statement of the constructor, of the
destructor, of an operator handler or of a display slot is a method call on
the channel; and the target-angle-status store is only ever named through the
accessor of the controller, by the target logger and the prediction reader. -/
theorem actuator_channel_single_writer_wiring :
    holdersOf (get arduino_command_channel_) constructor = [steering_controller_]
    ∧ dependentsOf arduino_command_channel_ constructor =
        [steering_controller_, kia_commands_logger_, steering_torque_offset_read_thread_]
    ∧ (argsOf kia_commands_logger_ constructor).map
          (List.filter (Arg.mentions arduino_command_channel_)) =
        some [history arduino_command_channel_ CommandsHistory]
    ∧ (argsOf steering_torque_offset_read_thread_ constructor).map
          (List.filter (Arg.mentions arduino_command_channel_)) =
        some [history arduino_command_channel_ CommandsHistory]
    ∧ (constructor ++ destructor ++ PredictionUpdaterStart ++ PredictionUpdaterStop ++
          SteeringStart ++ SteeringStop).any (Stmt.callsInto arduino_command_channel_) = false
    ∧ (∀ (a : Int) (t : String),
        (OnSteeringAngleChanged a ++ OnVelocityChanged t ++ OnSteeringTorqueChanged t ++
          OnSteeringPredictionChanged t).any (Stmt.callsInto arduino_command_channel_) = false)
    ∧ (storesUsed constructor).filter (fun x =>
          match x with
          | .history _ .TargetSteeringAnglesHistory => true
          | _ => false) =
        [history steering_controller_ TargetSteeringAnglesHistory]
    ∧ holdersOf (history steering_controller_ TargetSteeringAnglesHistory) constructor =
        [target_steering_angles_logger_, steering_prediction_read_thread_] := by
  refine ⟨by decide, by decide, by decide, by decide, by decide, ?_, by decide, by decide⟩
  intro a t
  simp [OnSteeringAngleChanged, OnVelocityChanged, OnSteeringTorqueChanged,
    OnSteeringPredictionChanged, Stmt.callsInto]

/-- C7: the steering-angle store is only ever named as the steering-angle store
of the motion data object; that one store is handed to the controller, to the
steering-angles logger and to the steering-angle display thread; the motion
data object, constructed once, is the one handed to the motion worker; and
the feeder is constructed with the controller as its sink and the prediction
store of the prediction worker as its source. -/
theorem steering_angle_store_is_shared :
    (storesUsed constructor).filter (fun x =>
          match x with
          | .history _ .steering_angles => true
          | _ => false) =
        [history car_motion_data_ steering_angles]
    ∧ holdersOf (history car_motion_data_ steering_angles) constructor =
        [steering_controller_, steering_angles_logger_, steering_angle_read_thread_]
    ∧ holdersOf (get car_motion_data_) constructor = [car_motion_data_updater_]
    ∧ ((constructions constructor).map fun e => e.1).count car_motion_data_ = 1
    ∧ ((constructions constructor).map fun e => e.1).count steering_controller_ = 1
    ∧ ((constructions constructor).map fun e => e.1).count prediction_updater_ = 1
    ∧ argsOf steering_controller_ constructor =
        some [history car_motion_data_ steering_angles, get arduino_command_channel_,
              param .steering_controller_settings]
    ∧ argsOf steering_angles_logger_ constructor =
        some [param .log_dir, root .STEERING_ANGLES_LOG_ROOT_ELEMENT,
              writer .SteeringAngleJsonWriter, history car_motion_data_ steering_angles]
    ∧ argsOf steering_angle_read_thread_ constructor =
        some [history car_motion_data_ steering_angles]
    ∧ argsOf steering_controller_feeder_ constructor =
        some [get steering_controller_, history prediction_updater_ Predictions, flag true]
    ∧ holdersOf (get steering_controller_) constructor = [steering_controller_feeder_] := by
  decide

/-! ## Executing the window on the run state -/

/-- Running a concatenation is running its parts one after the other. -/
theorem run_append (r : Member → Bool) (l₁ l₂ : List Stmt) (p : Pipeline) :
    run r p (l₁ ++ l₂) = (run r p l₁).bind fun q => run r q l₂ := by
  induction l₁ generalizing p with
  | nil => simp [run]
  | cons s rest ih =>
    simp only [List.cons_append, run]
    cases exec r p s with
    | none => simp
    | some q => simp [ih]

theorem run_constructor (r : Member → Bool) (feed0 : Bool) :
    ∃ c, run r (Pipeline.fresh feed0) constructor = some c ∧ c.feed_enabled = feed0 ∧
      ∀ m, c.life m = if m ∈ startedByConstructor then .Active else .Idle := by
  refine ⟨_, rfl, rfl, ?_⟩
  intro m
  cases m <;> rfl

theorem run_actions (r : Member → Bool) (acts : List OperatorAction) (p : Pipeline) :
    ∃ q, run r p (actionsBody acts) = some q ∧
      ∀ m, m ≠ car_motion_data_updater_ → q.life m = p.life m := by
  induction acts generalizing p with
  | nil => exact ⟨p, rfl, fun _ _ => rfl⟩
  | cons a rest ih =>
    have hstep : ∃ p₁, run r p a.body = some p₁ ∧
        ∀ m, m ≠ car_motion_data_updater_ → p₁.life m = p.life m := by
      cases a
      · exact ⟨_, rfl, fun _ _ => rfl⟩
      · exact ⟨_, rfl, fun _ _ => rfl⟩
      · refine ⟨_, rfl, fun m hm => ?_⟩
        simp [Pipeline.setLife, hm]
      · refine ⟨_, rfl, fun m hm => ?_⟩
        simp [Pipeline.setLife, hm]
    obtain ⟨p₁, h₁, hf₁⟩ := hstep
    obtain ⟨q, h₂, hf₂⟩ := ih p₁
    refine ⟨q, ?_, fun m hm => (hf₂ m hm).trans (hf₁ m hm)⟩
    simp only [actionsBody, List.flatMap_cons] at h₂ ⊢
    rw [run_append, h₁]
    simpa using h₂

/-- Effect of the statements of the destructor that come before `stop`, from a
state in which the four reader threads run. -/
theorem run_before_controller_stop (r : Member → Bool) (p : Pipeline)
    (ha : p.life steering_angle_read_thread_ = .Active)
    (hv : p.life velocity_read_thread_ = .Active)
    (ht : p.life steering_torque_offset_read_thread_ = .Active)
    (hp : p.life steering_prediction_read_thread_ = .Active) :
    ∃ q, run r p (before (.call steering_controller_ .Stop) destructor) = some q ∧
      q.feed_enabled = p.feed_enabled ∧
      ∀ m, q.life m =
        if m ∈ displayReaderThreads ++ durableLoggers then .Stopped else p.life m := by
  have hb : before (.call steering_controller_ .Stop) destructor = destructor.take 11 := by
    decide
  rw [hb]
  simp only [destructor, List.take, run, exec, Pipeline.setLife, ha, hv, ht, hp,
    LifeState.requestStop, LifeState.wait, LifeState.stop, Option.some_bind, Option.map_some',
    if_true, if_false, reduceCtorEq]
  refine ⟨_, rfl, rfl, ?_⟩
  intro m
  cases m <;> simp [displayReaderThreads, durableLoggers]

/-- Effect of the statements of the destructor that come before the stop of the
prediction worker, from a state in which the four reader threads run. -/
theorem run_before_prediction_stop (r : Member → Bool) (p : Pipeline)
    (ha : p.life steering_angle_read_thread_ = .Active)
    (hv : p.life velocity_read_thread_ = .Active)
    (ht : p.life steering_torque_offset_read_thread_ = .Active)
    (hp : p.life steering_prediction_read_thread_ = .Active) :
    ∃ q, run r p (before (.call prediction_updater_ .Stop) destructor) = some q ∧
      q.feed_enabled = p.feed_enabled ∧
      ∀ m, q.life m =
        if m ∈ displayReaderThreads ++ durableLoggers ++
            [steering_controller_, car_motion_data_updater_] then .Stopped
        else p.life m := by
  have hb : before (.call prediction_updater_ .Stop) destructor = destructor.take 13 := by
    decide
  rw [hb]
  simp only [destructor, List.take, run, exec, Pipeline.setLife, ha, hv, ht, hp,
    LifeState.requestStop, LifeState.wait, LifeState.stop, Option.some_bind, Option.map_some',
    if_true, if_false, reduceCtorEq]
  refine ⟨_, rfl, rfl, ?_⟩
  intro m
  cases m <;> simp [displayReaderThreads, durableLoggers]

/-- Effect of the whole destructor, from a state in which the four reader
threads run. -/
theorem run_destructor (r : Member → Bool) (p : Pipeline)
    (ha : p.life steering_angle_read_thread_ = .Active)
    (hv : p.life velocity_read_thread_ = .Active)
    (ht : p.life steering_torque_offset_read_thread_ = .Active)
    (hp : p.life steering_prediction_read_thread_ = .Active) :
    ∃ q, run r p destructor = some q ∧ q.feed_enabled = p.feed_enabled ∧
      ∀ m, q.life m =
        if m ∈ displayReaderThreads ++ stoppedWorkers then .Stopped else p.life m := by
  simp only [destructor, run, exec, Pipeline.setLife, ha, hv, ht, hp,
    LifeState.requestStop, LifeState.wait, LifeState.stop, Option.some_bind, Option.map_some',
    if_true, if_false, reduceCtorEq]
  refine ⟨_, rfl, rfl, ?_⟩
  intro m
  cases m <;> simp [displayReaderThreads, durableLoggers, stoppedWorkers]

/-- State reached by the constructor followed by operator actions. -/
theorem run_constructor_actions (r : Member → Bool) (feed0 : Bool)
    (acts : List OperatorAction) :
    ∃ p, run r (Pipeline.fresh feed0) (constructor ++ actionsBody acts) = some p ∧
      ∀ m, m ≠ car_motion_data_updater_ →
        p.life m = if m ∈ startedByConstructor then .Active else .Idle := by
  obtain ⟨c, hc, -, hlife⟩ := run_constructor r feed0
  obtain ⟨p, hp, hframe⟩ := run_actions r acts c
  refine ⟨p, ?_, fun m hm => ?_⟩
  · rw [run_append, hc]
    simpa using hp
  · rw [hframe m hm, hlife m]

/-- Toggling the feed flag any number of times only writes the flag. -/
theorem run_feed_actions (r : Member → Bool) (bs : List Bool) (p : Pipeline) :
    run r p (actionsBody (bs.map feedAction)) =
      some { p with feed_enabled := bs.getLast?.getD p.feed_enabled } := by
  induction bs generalizing p with
  | nil => rfl
  | cons b rest ih =>
    have hstep : run r p (feedAction b).body = some { p with feed_enabled := b } := by
      cases b <;> rfl
    simp only [List.map_cons, actionsBody, List.flatMap_cons] at ih ⊢
    rw [run_append, hstep, Option.some_bind, ih]
    cases rest with
    | nil => rfl
    | cons c rest2 =>
      rw [List.getLast?_cons_cons]
      obtain ⟨x, hx⟩ : ∃ x, (c :: rest2).getLast? = some x :=
        ⟨_, List.getLast?_eq_getLast _ (List.cons_ne_nil c rest2)⟩
      simp [hx]

/-! ## Teardown after arbitrary operator actions -/

/-- C2: for every restart policy, initial feed flag and sequence of operator
actions, the constructor followed by those actions and by the destructor runs
to its end, and in the state reached there no member is running: each of the
four display reader threads received `wait` and is stopped, and each of the
three loggers, the controller, the motion worker, the prediction worker and
the feeder received a stop and is stopped, the never-started ones included. -/
theorem teardown_leaves_nothing_running (r : Member → Bool) (feed0 : Bool)
    (acts : List OperatorAction) :
    ∃ q, run r (Pipeline.fresh feed0) (constructor ++ actionsBody acts ++ destructor) = some q
      ∧ (∀ m, (q.life m).running = false)
      ∧ (∀ m ∈ displayReaderThreads,
          q.life m = .Stopped ∧ Stmt.call m .RequestStop ∈ destructor ∧
            Stmt.call m .wait ∈ destructor)
      ∧ (∀ m ∈ stoppedWorkers,
          q.life m = .Stopped ∧
            (Stmt.call m .Stop ∈ destructor ∨ Stmt.call m .stop ∈ destructor))
      ∧ (∀ m ∈ durableLoggers ++ [steering_controller_],
          m ∉ startedByConstructor ∧
            ∀ a : OperatorAction, a.body.any (Stmt.callsInto m) = false) := by
  obtain ⟨p, hp, hlife⟩ := run_constructor_actions r feed0 acts
  obtain ⟨q, hq, -, hq_life⟩ := run_destructor r p
    (by rw [hlife _ (by decide)]; decide) (by rw [hlife _ (by decide)]; decide)
    (by rw [hlife _ (by decide)]; decide) (by rw [hlife _ (by decide)]; decide)
  refine ⟨q, ?_, ?_, ?_, ?_, by decide⟩
  · rw [run_append, hp]
    simpa using hq
  · intro m
    rw [hq_life m]
    by_cases hm : m = car_motion_data_updater_
    · subst hm
      rw [if_pos (by decide)]
      rfl
    · rw [hlife m hm]
      revert hm
      cases m <;> decide
  · intro m hm
    refine ⟨?_, ?_⟩
    · rw [hq_life m, if_pos (List.mem_append_left _ hm)]
    · revert hm
      cases m <;> decide
  · intro m hm
    refine ⟨?_, ?_⟩
    · rw [hq_life m, if_pos (List.mem_append_right _ hm)]
    · revert hm
      cases m <;> decide

/-! ## Operator handlers -/

/-- C3: from every pipeline state, PredictionUpdaterStart returns the same state
with the feed flag set to true and PredictionUpdaterStop the same state with
the flag set to false, the lifecycle state of every member unchanged; and
after the constructor and any sequence of these two actions the flag is the
value of the last action (the initial value when there is none), every
lifecycle state is as the constructor left it, and the feeder and the
prediction worker are running. -/
theorem feed_toggle_only_sets_flag (r : Member → Bool) (p : Pipeline) (feed0 : Bool)
    (bs : List Bool) :
    run r p PredictionUpdaterStart = some { p with feed_enabled := true }
    ∧ run r p PredictionUpdaterStop = some { p with feed_enabled := false }
    ∧ PredictionUpdaterStart = [.call steering_controller_feeder_ (.SetFeedEnabled true)]
    ∧ PredictionUpdaterStop = [.call steering_controller_feeder_ (.SetFeedEnabled false)]
    ∧ ∃ c q, run r (Pipeline.fresh feed0) constructor = some c
        ∧ run r c (actionsBody (bs.map feedAction)) = some q
        ∧ q.life = c.life
        ∧ q.feed_enabled = bs.getLast?.getD feed0
        ∧ q.life steering_controller_feeder_ = .Active
        ∧ q.life prediction_updater_ = .Active := by
  refine ⟨rfl, rfl, rfl, rfl, ?_⟩
  obtain ⟨c, hc, hfeed, hlife⟩ := run_constructor r feed0
  refine ⟨c, _, hc, run_feed_actions r bs c, rfl, ?_, ?_, ?_⟩
  · simp [hfeed]
  · simp only [hlife]
    decide
  · simp only [hlife]
    decide

/-- C5, as stated, fails: neither SteeringStart nor SteeringStop contains a call
on the controller, and after the constructor and SteeringStart the controller
is still Idle while the motion worker is Active. -/
theorem SteeringStart_leaves_controller_idle :
    SteeringStart.any (Stmt.callsInto steering_controller_) = false
    ∧ SteeringStop.any (Stmt.callsInto steering_controller_) = false
    ∧ (run (fun _ => true) (Pipeline.fresh false) (constructor ++ SteeringStart)).map
          (fun q => (q.life car_motion_data_updater_, q.life steering_controller_)) =
        some (.Active, .Idle) := by
  decide

/-- C5, amended: SteeringStart is the single call `start` on the motion worker
and SteeringStop the single call `stop` on it; PredictionUpdaterStart and
PredictionUpdaterStop are the single calls SetFeedEnabled(true) and
SetFeedEnabled(false) on the feeder.  From every state SteeringStart changes
only the lifecycle state of the motion worker (Idle to Active after the
constructor) and SteeringStop moves only the motion worker to Stopped; the
controller is left as it was. -/
theorem operator_handlers_are_single_calls (r : Member → Bool) (p : Pipeline)
    (feed0 : Bool) :
    SteeringStart = [.call car_motion_data_updater_ .start]
    ∧ SteeringStop = [.call car_motion_data_updater_ .stop]
    ∧ PredictionUpdaterStart = [.call steering_controller_feeder_ (.SetFeedEnabled true)]
    ∧ PredictionUpdaterStop = [.call steering_controller_feeder_ (.SetFeedEnabled false)]
    ∧ run r p SteeringStart =
        some (p.setLife car_motion_data_updater_
          ((p.life car_motion_data_updater_).start (r car_motion_data_updater_)))
    ∧ run r p SteeringStop = some (p.setLife car_motion_data_updater_ .Stopped)
    ∧ (∀ q, run r p SteeringStart = some q ∨ run r p SteeringStop = some q →
          q.life steering_controller_ = p.life steering_controller_)
    ∧ (∃ q, run r (Pipeline.fresh feed0) (constructor ++ SteeringStart) = some q
          ∧ q.life car_motion_data_updater_ = .Active
          ∧ q.life steering_controller_ = .Idle)
    ∧ (∃ q, run r (Pipeline.fresh feed0) (constructor ++ SteeringStart ++ SteeringStop) = some q
          ∧ q.life car_motion_data_updater_ = .Stopped
          ∧ q.life steering_controller_ = .Idle) := by
  refine ⟨rfl, rfl, rfl, rfl, rfl, rfl, ?_, ⟨_, rfl, rfl, rfl⟩, ⟨_, rfl, rfl, rfl⟩⟩
  intro q hq
  rcases hq with hq | hq
  · have h : some (p.setLife car_motion_data_updater_
          ((p.life car_motion_data_updater_).start (r car_motion_data_updater_))) = some q := hq
    cases h
    rfl
  · have h : some (p.setLife car_motion_data_updater_ .Stopped) = some q := hq
    cases h
    rfl

/-! ## The feeder during teardown -/

/-- C9, as stated, fails: the destructor has not issued Stop on the feeder when
it stops the controller, nor when it stops the prediction worker; the feeder
was constructed on the controller and started by the constructor, and it is
Active at both moments. -/
theorem feeder_runs_when_controller_is_stopped :
    (before (.call steering_controller_ .Stop) destructor).any
        (Stmt.callsInto steering_controller_feeder_) = false
    ∧ (before (.call prediction_updater_ .Stop) destructor).any
        (Stmt.callsInto steering_controller_feeder_) = false
    ∧ holdersOf (get steering_controller_) constructor = [steering_controller_feeder_]
    ∧ steering_controller_feeder_ ∈ startedByConstructor
    ∧ (run (fun _ => true) (Pipeline.fresh false)
          (constructor ++ before (.call steering_controller_ .Stop) destructor)).map
          (fun q => q.life steering_controller_feeder_) = some .Active
    ∧ (run (fun _ => true) (Pipeline.fresh false)
          (constructor ++ before (.call prediction_updater_ .Stop) destructor)).map
          (fun q => q.life steering_controller_feeder_) = some .Active := by
  decide

/-- C9, amended: the destructor never calls a member again after its own Stop,
stop or wait on it.  The feeder is the last member it stops: the Stop of the
controller and the Stop of the prediction worker both come before the Stop of
the feeder, so after the constructor and any operator actions the feeder is
still Active at the moment the controller is stopped (when the reader threads
and the loggers are already stopped) and at the moment the prediction worker
is stopped (when the controller and the motion worker are already stopped). -/
theorem feeder_is_stopped_last (r : Member → Bool) (feed0 : Bool)
    (acts : List OperatorAction) :
    usedAfterStop destructor = false
    ∧ (destructor.filter Stmt.isCall).getLast? = some (.call steering_controller_feeder_ .Stop)
    ∧ Stmt.call steering_controller_ .Stop ∈
        before (.call steering_controller_feeder_ .Stop) destructor
    ∧ Stmt.call prediction_updater_ .Stop ∈
        before (.call steering_controller_feeder_ .Stop) destructor
    ∧ (∃ q, run r (Pipeline.fresh feed0)
          (constructor ++ actionsBody acts ++
            before (.call steering_controller_ .Stop) destructor) = some q
        ∧ q.life steering_controller_feeder_ = .Active
        ∧ q.life prediction_updater_ = .Active
        ∧ ∀ m ∈ displayReaderThreads ++ durableLoggers, q.life m = .Stopped)
    ∧ (∃ q, run r (Pipeline.fresh feed0)
          (constructor ++ actionsBody acts ++
            before (.call prediction_updater_ .Stop) destructor) = some q
        ∧ q.life steering_controller_feeder_ = .Active
        ∧ q.life steering_controller_ = .Stopped
        ∧ q.life car_motion_data_updater_ = .Stopped) := by
  obtain ⟨p, hp, hlife⟩ := run_constructor_actions r feed0 acts
  have ha := hlife steering_angle_read_thread_ (by decide)
  have hv := hlife velocity_read_thread_ (by decide)
  have ht := hlife steering_torque_offset_read_thread_ (by decide)
  have hpr := hlife steering_prediction_read_thread_ (by decide)
  have hfeed := hlife steering_controller_feeder_ (by decide)
  have hpred := hlife prediction_updater_ (by decide)
  rw [if_pos (by decide)] at ha hv ht hpr hfeed hpred
  obtain ⟨q₁, hq₁, -, hl₁⟩ := run_before_controller_stop r p ha hv ht hpr
  obtain ⟨q₂, hq₂, -, hl₂⟩ := run_before_prediction_stop r p ha hv ht hpr
  refine ⟨by decide, by decide, by decide, by decide, ⟨q₁, ?_, ?_, ?_, ?_⟩, ⟨q₂, ?_, ?_, ?_, ?_⟩⟩
  · rw [run_append, hp]
    simpa using hq₁
  · rw [hl₁, if_neg (by decide), hfeed]
  · rw [hl₁, if_neg (by decide), hpred]
  · intro m hm
    rw [hl₁, if_pos hm]
  · rw [run_append, hp]
    simpa using hq₂
  · rw [hl₂, if_neg (by decide), hfeed]
  · rw [hl₂, if_pos (by decide)]
  · rw [hl₂, if_pos (by decide)]

/-! ## Bounded history store -/

/-- Keeping the last `n` entries after each append is keeping the last `n` at
the end. -/
theorem drop_append_singleton_drop {α : Type} (n : Nat) (ys : List α) (y : α) :
    (ys.drop (ys.length - n) ++ [y]).drop ((ys.drop (ys.length - n) ++ [y]).length - n) =
      (ys ++ [y]).drop ((ys ++ [y]).length - n) := by
  by_cases h : ys.length < n
  · have h0 : ys.length - n = 0 := by omega
    simp [h0]
  · have hlen : (ys.drop (ys.length - n)).length = n := by
      rw [List.length_drop]
      omega
    rcases Nat.eq_zero_or_pos n with hn | hn
    · subst hn
      simp
    · have e1 : (ys.drop (ys.length - n) ++ [y]).length - n = 1 := by
        rw [List.length_append, hlen]
        simp
      have e2 : (ys ++ [y]).length - n = ys.length - n + 1 := by
        rw [List.length_append]
        simp only [List.length_singleton]
        omega
      rw [e1, e2]
      rw [List.drop_append_of_le_length (by rw [hlen]; exact hn),
        List.drop_append_of_le_length (by omega), List.drop_drop]

/-- Appending a sequence is appending its last sample after the rest. -/
theorem appendAll_concat {α : Type} (h : TimestampedHistory α) (ys : List α) (y : α) :
    h.appendAll (ys ++ [y]) = (h.appendAll ys).append y := by
  simp [TimestampedHistory.appendAll, List.foldl_append]

/-- The capacity never changes. -/
theorem appendAll_capacity {α : Type} (h : TimestampedHistory α) (xs : List α) :
    (h.appendAll xs).capacity = h.capacity := by
  induction xs generalizing h with
  | nil => rfl
  | cons x rest ih =>
    show ((h.append x).appendAll rest).capacity = h.capacity
    rw [ih]
    rfl

/-- C8: after appending any sequence of samples to an empty store of capacity
`n`, the store holds exactly `min (number of appends) n` entries, and they are
the last `n` samples appended, in the order they were appended; the motion
stores are constructed with capacity 10. -/
theorem history_holds_most_recent {α : Type} (n : Nat) (xs : List α) :
    ((TimestampedHistory.empty α n).appendAll xs).entries.length = min xs.length n
    ∧ ((TimestampedHistory.empty α n).appendAll xs).entries = xs.drop (xs.length - n)
    ∧ ((TimestampedHistory.empty α n).appendAll xs).capacity = n
    ∧ motionHistoryCapacity constructor = some 10 := by
  have key : ((TimestampedHistory.empty α n).appendAll xs).entries =
      xs.drop (xs.length - n) := by
    induction xs using List.reverseRecOn with
    | nil => simp [TimestampedHistory.appendAll, TimestampedHistory.empty]
    | append_singleton ys y ih =>
      rw [appendAll_concat]
      show (((TimestampedHistory.empty α n).appendAll ys).entries ++ [y]).drop
          ((((TimestampedHistory.empty α n).appendAll ys).entries ++ [y]).length -
            ((TimestampedHistory.empty α n).appendAll ys).capacity) = _
      rw [appendAll_capacity, ih]
      exact drop_append_singleton_drop n ys y
  refine ⟨?_, key, appendAll_capacity _ xs, by decide⟩
  rw [key, List.length_drop]
  omega

end SteeringNN
